import Mathlib

/-!
Verification of the Langgraph_dspy agent against its specification.

Shallow embedding of the repository's Python sources:
* `agent/graph_hybrid.py`   — pipeline nodes, repair loop, confidence scoring
* `agent/rag/retrieval.py`  — hybrid BM25 + TF-IDF retrieval
* `agent/tools/sqlite_tool.py` — SQL execution wrapper and table extraction
* `agent/dspy_signatures.py` — completion-text normalizer (`basic_request`)

External collaborators (the Ollama completion service, the BM25/TF-IDF
libraries, the SQLite engine, `json.loads`/`ast.literal_eval`) are modelled
as explicit parameters: each node takes the collaborator's outcome as an
argument, exactly where the Python code receives it.  Python floats in the
sources carry only small decimal constants, so they are modelled as `ℚ`.
-/

namespace AgentSpec

/-! ### Python string primitives -/

/-- Python whitespace (`str.strip`, `\s`): space, tab, LF, CR, VT, FF. -/
def pyIsSpace (c : Char) : Bool :=
  c = ' ' || c = '\t' || c = '\n' || c = '\r' || c = '\x0b' || c = '\x0c'

/-- Python `str.strip()` on a character list. -/
def pyStrip (cs : List Char) : List Char :=
  ((cs.dropWhile pyIsSpace).reverse.dropWhile pyIsSpace).reverse

/-- Python `str.lower()`. -/
def pyLower (cs : List Char) : List Char := cs.map Char.toLower

/-- Python `str.upper()`. -/
def pyUpper (cs : List Char) : List Char := cs.map Char.toUpper

/-- Python truthiness of an `Optional[str]`: `None` and `""` are falsy. -/
def pyTruthyOptStr : Option String → Bool
  | none => false
  | some s => s ≠ ""

/-- Auxiliary for `pySplitWs`: accumulate the current word (reversed). -/
def pySplitWsAux : List Char → List Char → List String
  | [], acc => if acc.isEmpty then [] else [String.mk acc.reverse]
  | c :: rest, acc =>
      if pyIsSpace c then
        if acc.isEmpty then pySplitWsAux rest []
        else String.mk acc.reverse :: pySplitWsAux rest []
      else pySplitWsAux rest (c :: acc)

/-- Python `str.split()` (no argument: split on whitespace runs, no empties). -/
def pySplitWs (cs : List Char) : List String := pySplitWsAux cs []

/-- Match a literal pattern at the head of the input, returning the rest. -/
def matchLit : List Char → List Char → Option (List Char)
  | [], rest => some rest
  | _, [] => none
  | p :: ps, c :: cs => if c = p then matchLit ps cs else none

/-- Case-insensitive match of a lowercase pattern at the head of the input. -/
def matchCI : List Char → List Char → Option (List Char)
  | [], rest => some rest
  | _, [] => none
  | p :: ps, c :: cs => if c.toLower = p then matchCI ps cs else none

/-- Does `needle` occur as a contiguous substring? (Python `in`.) -/
def containsSub (needle : List Char) : List Char → Bool
  | [] => needle.isEmpty
  | c :: cs => (matchLit needle (c :: cs)).isSome || containsSub needle cs

/-- Does the input start with the literal pattern? (Python `startswith`.) -/
def startsLit (pat cs : List Char) : Bool := (matchLit pat cs).isSome

/-! ### Data model (`AgentState` from `agent/graph_hybrid.py`) -/

/-- A retrieved chunk record `{id, text, score, source}` (`retrieval.py`). -/
structure RetrievedChunk where
  id : String
  text : String
  score : ℚ
  source : String
deriving DecidableEq

/-- A stored corpus chunk `{id, text, source}` (`self.chunks`). -/
structure Chunk where
  id : String
  text : String
  source : String
deriving DecidableEq

/-- One result row.  SQLite cell values are opaque to the agent logic, so
they are modelled as strings. -/
abbrev Row := List String

/-- The dict returned by `SQLiteTool.run_sql`.  The failure dicts
`{"error": msg}` stored by `node_sqlgen`/`node_sqlexec` are modelled as this
record with empty lists, matching every later read
(`result.get("rows", [])` and friends default to empty). -/
structure SqlResult where
  columns : List String
  rows : List Row
  tables_used : List String
  error : Option String
deriving DecidableEq

/-- The shared LangGraph state (`class AgentState` in `graph_hybrid.py`).
All keys are initialized by `run_hybrid_agent`, so fields are total. -/
structure AgentState where
  question : String
  format_hint : String
  route : String
  retrieved_docs : List RetrievedChunk
  plan : List (String × String)
  sql : String
  sql_result : SqlResult
  rows : List Row
  columns : List String
  tables_used : List String
  error : Option String
  citations : List String
  final_answer : String
  explanation : String
  repairs : Nat
deriving DecidableEq

/-- Outcome of a completion-service call (external collaborator):
either it raised an exception with message `str(e)`, or returned a value. -/
inductive LMResult (α : Type) where
  | exc (msg : String)
  | ok (val : α)

/-! ### Pipeline nodes (`agent/graph_hybrid.py`) -/

/-- Node `node_router`.  `out` is the router completion outcome; on success the
value models `getattr(out, "route", "hybrid")` (a missing attribute is the
truthy default `"hybrid"`, an attribute of `None` is the falsy `""` case). -/
def node_router (out : LMResult String) (state : AgentState) : AgentState :=
  match out with
  | .ok route =>
      if route ≠ "" then
        { state with route := String.mk (pyLower (pyStrip route.data)) }
      else
        { state with route := "hybrid" }
  | .exc e =>
      { state with route := "hybrid",
                   error := some ("Router failed: " ++ String.mk (e.data.take 100)) }

/-- Node `node_retrieve`: stores the retriever's output (k = 6 in the caller). -/
def node_retrieve (docs : List RetrievedChunk) (state : AgentState) : AgentState :=
  { state with retrieved_docs := docs }

/-- Node `node_planner`: stores the planner's `plan` field.  The planner call has
no exception guard; the raising case is handled in the controller step
(`Phase.aborted`). -/
def node_planner (plan : List (String × String)) (state : AgentState) : AgentState :=
  { state with plan := plan }

/-- Outcome of the `nl2sql` call in `node_sqlgen`:
exception, `sql_out is None`, or an output whose `sql` attribute is
`none` (missing / `None`) or a string (possibly empty). -/
inductive SqlGenOut where
  | exc (msg : String)
  | noOutput
  | output (sqlField : Option String)

/-- Node `node_sqlgen`. -/
def node_sqlgen (out : SqlGenOut) (state : AgentState) : AgentState :=
  match out with
  | .exc e =>
      { state with sql := "",
                   sql_result := ⟨[], [], [], some ("NL2SQL call failed: " ++ e)⟩,
                   error := some e }
  | .noOutput =>
      { state with sql := "",
                   sql_result := ⟨[], [], [], some "NL2SQL produced no output"⟩,
                   error := some "NL2SQL produced no output" }
  | .output sqlField =>
      match sqlField with
      | none =>
          { state with sql := "",
                       sql_result := ⟨[], [], [], some "NL2SQL returned empty SQL"⟩,
                       error := some "NL2SQL returned empty SQL" }
      | some t =>
          if t = "" then
            { state with sql := "",
                         sql_result := ⟨[], [], [], some "NL2SQL returned empty SQL"⟩,
                         error := some "NL2SQL returned empty SQL" }
          else
            { state with sql := String.mk (pyStrip t.data) }

/-! ### SQLite tool (`agent/tools/sqlite_tool.py`) -/

/-- Class `[A-Za-z_]` — first character of the capture group. -/
def isIdentStart (c : Char) : Bool := c.isAlpha || c = '_'

/-- Class `[A-Za-z0-9_ ]` — continuation characters of the capture group.
Note that the source's character class really does include a space. -/
def isIdentCont (c : Char) : Bool := c.isAlpha || c.isDigit || c = '_' || c = ' '

/-- One attempt to match `(?:FROM|JOIN)\s+([A-Za-z_][A-Za-z0-9_ ]*)`
(case-insensitive) at the current position; returns the capture and the
remaining input after the whole match. -/
def tryMatchTable (cs : List Char) : Option (List Char × List Char) :=
  let afterKw : Option (List Char) :=
    match matchCI "from".data cs with
    | some r => some r
    | none => matchCI "join".data cs
  match afterKw with
  | none => none
  | some r =>
      match r with
      | [] => none
      | c :: _ =>
          if pyIsSpace c then
            match r.dropWhile pyIsSpace with
            | [] => none
            | d :: rest =>
                if isIdentStart d then
                  some (d :: rest.takeWhile isIdentCont, rest.dropWhile isIdentCont)
                else none
          else none

/-- Scan of `re.findall`: non-overlapping, leftmost matches, resuming after
each match.  Fuel is the input length (each step consumes ≥ 1 char). -/
def scanTablesAux : Nat → List Char → List (List Char)
  | 0, _ => []
  | _ + 1, [] => []
  | fuel + 1, c :: cs =>
      match tryMatchTable (c :: cs) with
      | some (capture, rest) => capture :: scanTablesAux fuel rest
      | none => scanTablesAux fuel cs

/-- First-occurrence deduplication.  CPython's `list(set(...))` order is
unspecified; the claims only constrain membership. -/
def dedupFirst : List String → List String
  | [] => []
  | s :: rest => s :: (dedupFirst rest).filter (fun t => t ≠ s)

/-- Source `SQLiteTool.extract_tables_used`. -/
def extract_tables_used (query : String) : List String :=
  let found := scanTablesAux query.data.length query.data
  let cleaned := found.map
    (fun m => String.mk ((pyStrip m).filter (fun c => c ≠ '"')))
  dedupFirst cleaned

/-- Outcome of the SQLite engine on `cur.execute` (external collaborator):
an exception message, or success with the cursor description (column
names) and fetched rows. -/
inductive ExecOutcome where
  | exc (msg : String)
  | ok (description : List String) (fetched : List Row)

/-- Test `query.strip().lower().startswith("select")`. -/
def isSelectQuery (query : String) : Bool :=
  startsLit "select".data (pyLower (pyStrip query.data))

/-- Source `SQLiteTool.run_sql`: `tables_used` is computed up-front, before and
independently of execution; rows/columns are filled only for SELECTs. -/
def run_sql (query : String) (exec : ExecOutcome) : SqlResult :=
  let base : SqlResult := ⟨[], [], extract_tables_used query, none⟩
  match exec with
  | .exc e => { base with error := some e }
  | .ok description fetched =>
      if isSelectQuery query then
        { base with columns := description, rows := fetched }
      else base

/-- Node `node_sqlexec`. -/
def node_sqlexec (exec : ExecOutcome) (state : AgentState) : AgentState :=
  if state.sql = "" then
    { state with sql_result := ⟨[], [], [], some "Empty SQL."⟩ }
  else
    let result := run_sql state.sql exec
    { state with sql_result := result,
                 rows := result.rows,
                 columns := result.columns,
                 tables_used := result.tables_used,
                 error := result.error }

/-! ### Synthesizer node -/

/-- The synthesizer output object (each `getattr` default is the record's
value for a missing attribute). -/
structure SynthOut where
  final_answer : String
  explanation : String
  citations : List String

/-- Outcome of the `synth` call in `node_synthesize`. -/
inductive SynthResult where
  | exc (msg : String)
  | noOutput
  | ok (out : SynthOut)

/-- Node `node_synthesize`. -/
def node_synthesize (out : SynthResult) (state : AgentState) : AgentState :=
  match out with
  | .exc e =>
      { state with
          final_answer := "Unable to synthesize answer: " ++ String.mk (e.data.take 100),
          explanation := "The synthesis step encountered an error.",
          citations := [],
          error := some e }
  | .noOutput =>
      { state with final_answer := "No synthesis output",
                   explanation := "",
                   citations := [] }
  | .ok o =>
      { state with final_answer := o.final_answer,
                   explanation := o.explanation,
                   citations := o.citations }

/-! ### Repair decision and confidence -/

/-- Node `node_validate_or_repair` (the "repair" graph node).  `setdefault` is a
no-op here because `repairs` is a total field. -/
def node_validate_or_repair (state : AgentState) : AgentState :=
  if pyTruthyOptStr state.error then
    if state.repairs ≥ 2 then state
    else { state with repairs := state.repairs + 1, sql := "" }
  else state

/-- Decision `should_repair`: routing decision after the synthesizer. -/
def should_repair (state : AgentState) : String :=
  if pyTruthyOptStr state.error then
    if state.repairs < 2 then "repair" else "end"
  else "end"

/-- Source `compute_confidence`. -/
def compute_confidence (state : AgentState) : ℚ :=
  let conf : ℚ := 1/10
  let conf := if pyTruthyOptStr state.error then conf else conf + 4/10
  let conf := if state.repairs = 0 then conf + 3/10 else conf
  let conf := if state.retrieved_docs.isEmpty then conf else conf + 3/10
  min conf 1

/-- Confidence as a function of the three boolean conditions. -/
def confFlags (errFalsy zeroRepairs hasDocs : Bool) : ℚ :=
  min (1/10 + (if errFalsy then 4/10 else 0) + (if zeroRepairs then 3/10 else 0)
        + (if hasDocs then 3/10 else 0)) 1

/-! ### The controller state machine (`build_graph` wiring) -/

/-- The graph's control points: the seven nodes, the terminal `END`, and
`aborted` for the unguarded planner exception (the §7 gap). -/
inductive Phase where
  | router | retrieve | planner | sqlgen | sqlexec | synthesize | repair
  | done | aborted
deriving DecidableEq

/-- One execution environment: the external collaborators' outcomes.  Generative
nodes inside the repair loop are indexed by the current repair count, so a
run may observe a different outcome on each attempt. -/
structure Env where
  routerOut : LMResult String
  docs : List RetrievedChunk
  plannerOut : LMResult (List (String × String))
  sqlgenOut : Nat → SqlGenOut
  execOut : Nat → ExecOutcome
  synthOut : Nat → SynthResult

/-- One transition of the compiled graph: follows the `add_edge` /
`add_conditional_edges` wiring of `build_graph`. -/
def pipelineStep (env : Env) : Phase × AgentState → Phase × AgentState
  | (.router, s) => (.retrieve, node_router env.routerOut s)
  | (.retrieve, s) => (.planner, node_retrieve env.docs s)
  | (.planner, s) =>
      match env.plannerOut with
      | .exc _ => (.aborted, s)
      | .ok p => (.sqlgen, node_planner p s)
  | (.sqlgen, s) => (.sqlexec, node_sqlgen (env.sqlgenOut s.repairs) s)
  | (.sqlexec, s) => (.synthesize, node_sqlexec (env.execOut s.repairs) s)
  | (.synthesize, s) =>
      let s2 := node_synthesize (env.synthOut s.repairs) s
      if should_repair s2 = "repair" then (.repair, s2) else (.done, s2)
  | (.repair, s) => (.sqlgen, node_validate_or_repair s)
  | (.done, s) => (.done, s)
  | (.aborted, s) => (.aborted, s)

/-- The initial `AgentState` built by `run_hybrid_agent`. -/
def initState (question format_hint : String) : AgentState :=
  { question := question, format_hint := format_hint, route := "",
    retrieved_docs := [], plan := [], sql := "", sql_result := ⟨[], [], [], none⟩,
    rows := [], columns := [], tables_used := [], error := none,
    citations := [], final_answer := "", explanation := "", repairs := 0 }

/-- Iterate `n` transitions of the controller from the entry point. -/
def runController (env : Env) (question format_hint : String) (n : Nat) :
    Phase × AgentState :=
  (pipelineStep env)^[n] (Phase.router, initState question format_hint)

/-! ### Hybrid retrieval (`agent/rag/retrieval.py`)

`BM25Okapi.get_scores` and the TF-IDF similarity product are external
library calls; they are modelled as functions producing one score per
corpus chunk.  The combination, ranking and selection logic of
`LocalDocRetriever.retrieve` is embedded exactly. -/

/-- The two library scorers built by `_build_indexes`:
`bm25Scores` maps the tokenized query to per-chunk BM25 scores,
`tfidfSims` maps the raw query to per-chunk TF-IDF similarities. -/
structure ScoreEnv where
  bm25Scores : List String → List ℚ
  tfidfSims : String → List ℚ

/-- Combination `combined = 0.7 * bm25_scores + 0.3 * tfidf_scores` (element-wise). -/
def combineScores (bm25 tfidf : List ℚ) : List ℚ :=
  List.zipWith (fun b t => 7/10 * b + 3/10 * t) bm25 tfidf

/-- Model of `combined.argsort()[::-1]`: NumPy's argsort is ascending and stable on
the small arrays this code sorts (ties keep index order); the slice
reverses it, so ties come out in descending index order. -/
def argsortDesc (scores : List ℚ) : List Nat :=
  (List.insertionSort (fun i j => scores.getD i 0 ≤ scores.getD j 0)
      (List.range scores.length)).reverse

/-- The result record appended for one selected index. -/
def mkRetrieved (chunks : List Chunk) (combined : List ℚ) (idx : Nat) :
    RetrievedChunk :=
  { id := (chunks.getD idx ⟨"", "", ""⟩).id,
    text := (chunks.getD idx ⟨"", "", ""⟩).text,
    score := combined.getD idx 0,
    source := (chunks.getD idx ⟨"", "", ""⟩).source }

/-- Source `LocalDocRetriever.retrieve`: tokenize the lower-cased query by
whitespace, score under both indexes, combine, rank, take the top `k`
indices and build the result records (the source's local variables
`query_tokens`, `combined`, `top_idx` are inlined here). -/
def retrieve (env : ScoreEnv) (chunks : List Chunk) (query : String) (k : Nat) :
    List RetrievedChunk :=
  ((argsortDesc (combineScores (env.bm25Scores (pySplitWs (pyLower query.data)))
      (env.tfidfSims query))).take k).map
    (mkRetrieved chunks
      (combineScores (env.bm25Scores (pySplitWs (pyLower query.data)))
        (env.tfidfSims query)))

/-! ### Completion normalizer (`OllamaDSPyWrapper.basic_request`)

The model covers the normalization applied to the completion text after
the HTTP layer: the parsed-dict branch, markdown-fence stripping, marker
and heading extraction, the SQL sniff, and field backfilling.
`json.loads` / `ast.literal_eval` are stdlib collaborators, passed in as
the `parseDict` parameter; it is only consulted when the stripped text
starts with an opening brace, exactly as in the source. -/

/-- A parsed dict value, as far as the normalizer inspects one:
a string, an empty list (the `citations` default), or anything else. -/
inductive PyVal where
  | str (s : String)
  | emptyList
  | other
deriving DecidableEq

/-- A `citations` value: markers store the raw string, the heading path
stores a list of items (matching the Python code, which keeps whichever
shape it produced). -/
inductive CitVal where
  | strv (s : List Char)
  | listv (xs : List String)
deriving DecidableEq

/-- The `mapped` record returned (as JSON) when heuristic extraction found
at least one field.  `plan` is always the empty mapping on this path. -/
structure Mapped where
  final_answer : List Char
  explanation : List Char
  citations : CitVal
  route : String
  sql : List Char
  plan : List (String × String)
deriving DecidableEq

/-- The value `basic_request` returns: the raw completion text, the
backfilled parsed dict, or the backfilled heuristic fields (the latter two
are serialized with `json.dumps` in the source). -/
inductive NormOut where
  | raw (text : String)
  | parsedDict (entries : List (String × PyVal))
  | fields (m : Mapped)
deriving DecidableEq

/-- The `sql` field of a structured result, if any. -/
def NormOut.sqlField : NormOut → Option (List Char)
  | .fields m => some m.sql
  | _ => none

/-- The `route` field of a structured result, if any. -/
def NormOut.routeField : NormOut → Option String
  | .fields m => some m.route
  | _ => none

/-- The intermediate `out` dict of heuristic extraction (all optional). -/
structure HeurOut where
  final_answer : Option (List Char)
  explanation : Option (List Char)
  citations : Option CitVal
  sql : Option (List Char)
deriving DecidableEq

/-- Consume one-or-more characters satisfying `p` (a greedy `＋` class);
fails if the first character does not satisfy `p`. -/
def dropMany1 (p : Char → Bool) : List Char → Option (List Char)
  | [] => none
  | c :: rest => if p c then some (rest.dropWhile p) else none

/-- Match the marker head `\[+\s*##\s*name\s*##\s*\]+\s*` at the current
position (name letters case-insensitive), returning the input after the
trailing whitespace run. -/
def markerHeadAt (name : List Char) (cs : List Char) : Option (List Char) := do
  let r1 ← dropMany1 (fun c => c = '[') cs
  let r2 ← matchLit "##".data (r1.dropWhile pyIsSpace)
  let r3 ← matchCI name (r2.dropWhile pyIsSpace)
  let r4 ← matchLit "##".data (r3.dropWhile pyIsSpace)
  let r5 ← dropMany1 (fun c => c = ']') (r4.dropWhile pyIsSpace)
  some (r5.dropWhile pyIsSpace)

/-- Lazy capture `(.*?)(?=(\n\[|\Z))`: everything up to the first `"\n["`,
or to the end of the input. -/
def captureUntilNlBracket : List Char → List Char
  | [] => []
  | c :: cs =>
      if c = '\n' then
        match cs with
        | '[' :: _ => []
        | _ => c :: captureUntilNlBracket cs
      else c :: captureUntilNlBracket cs

/-- Source `extract_marker(field_name, txt)`: `re.search` scans left to right for
the first marker-head match, then captures and strips. -/
def extractMarkerAux (name : List Char) : List Char → Option (List Char)
  | [] => none
  | c :: cs =>
      match markerHeadAt name (c :: cs) with
      | some rest => some (pyStrip (captureUntilNlBracket rest))
      | none => extractMarkerAux name cs

/-- The marker loop body `val = extract_marker(fld, text); if val: ...`:
an empty (falsy) capture does not set the field. -/
def markerField (name : String) (text : List Char) : Option (List Char) :=
  match extractMarkerAux name.data text with
  | some v => if v = [] then none else some v
  | none => none

/-- Lazy capture `(.*?)($|\n\n|\n\[)` under `re.S` without `re.M`:
stop at end of input, before a single trailing newline, or before
`"\n\n"` / `"\n["`. -/
def captureHeadingBody : List Char → List Char
  | [] => []
  | ['\n'] => []
  | '\n' :: '\n' :: _ => []
  | '\n' :: '[' :: _ => []
  | c :: cs => c :: captureHeadingBody cs

/-- After a heading's literal part matched, the regex consumes `\s*`
greedily and then captures: skip whitespace, capture, strip. -/
def headingBody (rest : List Char) : List Char :=
  pyStrip (captureHeadingBody (rest.dropWhile pyIsSpace))

/-- Search for the first position where `headMatch` succeeds, returning
what follows the matched head. -/
def searchHead (headMatch : List Char → Option (List Char)) :
    List Char → Option (List Char)
  | [] => none
  | c :: cs =>
      match headMatch (c :: cs) with
      | some rest => some rest
      | none => searchHead headMatch cs

/-- Model of `re.search(r"Final Answer:\s*(.*?)($|\n\n|\n\[)", text, re.I | re.S)`. -/
def headingFinalAnswer (text : List Char) : Option (List Char) :=
  (searchHead (matchCI "final answer:".data) text).map headingBody

/-- Head of `Explanation[:\-]?\s*...`: the literal word, then an optional
colon or hyphen. -/
def explanationHeadAt (cs : List Char) : Option (List Char) :=
  (matchCI "explanation".data cs).map (fun r =>
    match r with
    | ':' :: rest => rest
    | '-' :: rest => rest
    | rest => rest)

/-- Model of `re.search(r"Explanation[:\-]?\s*(.*?)($|\n\n|\n\[)", ...)`. -/
def headingExplanation (text : List Char) : Option (List Char) :=
  (searchHead explanationHeadAt text).map headingBody

/-- Head of `Citations?:` — with or without the optional `s`. -/
def citationsHeadAt (cs : List Char) : Option (List Char) :=
  match matchCI "citations:".data cs with
  | some r => some r
  | none => matchCI "citation:".data cs

/-- Split the captured citations text on `\n`, `;` or `,`. -/
def splitCitChars : List Char → List (List Char)
  | [] => [[]]
  | c :: cs =>
      if c = '\n' || c = ';' || c = ',' then [] :: splitCitChars cs
      else
        match splitCitChars cs with
        | [] => [[c]]
        | p :: ps => (c :: p) :: ps

/-- Model of `re.search(r"Citations?:\s*(.*?)($|\n\n|\n\[)", ...)` followed by
`[ln.strip() for ln in re.split(r"\n|;|,", ctext) if ln.strip()]`,
falling back to `[ctext]` when no item survives. -/
def headingCitations (text : List Char) : Option (List String) :=
  (searchHead citationsHeadAt text).map (fun rest =>
    let ctext := headingBody rest
    let items := ((splitCitChars ctext).map pyStrip).filter (fun p => ¬ p.isEmpty)
    if items.isEmpty then [String.mk ctext] else items.map String.mk)

/-- Expression `text.strip().split(None, 1)[:1]` — the first whitespace-separated
token of the stripped text (empty if none). -/
def firstToken (text : List Char) : List Char :=
  (pyStrip text).takeWhile (fun c => ¬ pyIsSpace c)

/-- The recognized leading query keywords. -/
def sqlKeywords : List (List Char) :=
  ["SELECT".data, "WITH".data, "INSERT".data, "UPDATE".data, "DELETE".data,
   "CREATE".data]

/-- Flag `sql_like`: the first token, uppercased, is a query keyword. -/
def sqlLike (text : List Char) : Bool :=
  decide (pyUpper (firstToken text) ∈ sqlKeywords)

/-- First route substring found in an already-lowered value, checked in
the fixed order rag, sql, hybrid. -/
def inferRouteFrom (v : List Char) : Option String :=
  if containsSub "rag".data v then some "rag"
  else if containsSub "sql".data v then some "sql"
  else if containsSub "hybrid".data v then some "hybrid"
  else none

/-- The route-inference loop over candidate keys
`["explanation", "final_answer", "plan"]` (`plan` is never present on the
heuristic path): continue to the next candidate until a route is found. -/
def inferRoute (o : HeurOut) : Option String :=
  match o.explanation.bind (fun v => inferRouteFrom (pyLower v)) with
  | some r => some r
  | none => o.final_answer.bind (fun v => inferRouteFrom (pyLower v))

/-- One candidate of the SQL-reuse loop: the value is reused when it
contains `"select"` case-insensitively. -/
def selectReuseFrom (v? : Option (List Char)) : Option (List Char) :=
  v?.bind (fun v => if containsSub "select".data (pyLower v) then some v else none)

/-- The SQL-reuse loop over `["explanation", "final_answer"]`. -/
def reuseSql (o : HeurOut) : Option (List Char) :=
  match selectReuseFrom o.explanation with
  | some v => some v
  | none => selectReuseFrom o.final_answer

/-- Field backfilling of the `mapped` dict, in source order: route
inference, SQL reuse, then per-field defaults. -/
def backfillHeur (o : HeurOut) (text : List Char) : Mapped :=
  let route := (inferRoute o).getD "hybrid"
  let sql1 := match o.sql with
    | some v => some v
    | none => reuseSql o
  let fa := match o.final_answer with
    | some v => v
    | none =>
        match sql1 with
        | some v => v
        | none =>
            match o.explanation with
            | some v => v
            | none => (pyStrip text).take 200
  { final_answer := fa,
    explanation := o.explanation.getD [],
    citations := o.citations.getD (.listv []),
    route := route,
    sql := sql1.getD [],
    plan := [] }

/-- Heuristic extraction: markers for the four fields, then headings for
fields still missing, then the SQL sniff; return the backfilled record if
anything was found, else the raw text. -/
def heuristicExtract (text : List Char) : NormOut :=
  let m_fa := markerField "final_answer" text
  let m_ex := markerField "explanation" text
  let m_cit := markerField "citations" text
  let m_sql := markerField "sql" text
  let h_fa := match m_fa with
    | some v => some v
    | none => headingFinalAnswer text
  let h_ex := match m_ex with
    | some v => some v
    | none => headingExplanation text
  let h_cit : Option CitVal := match m_cit with
    | some v => some (.strv v)
    | none => (headingCitations text).map .listv
  let h_sql := match m_sql with
    | some v => some v
    | none => if sqlLike text then some (pyStrip text) else none
  let o : HeurOut := ⟨h_fa, h_ex, h_cit, h_sql⟩
  if o.final_answer.isSome || o.explanation.isSome || o.citations.isSome
      || o.sql.isSome then
    .fields (backfillHeur o text)
  else
    .raw (String.mk text)

/-- The text before the first occurrence of `needle` (whole input if
absent). -/
def takeUntilSub (needle : List Char) : List Char → List Char
  | [] => []
  | c :: cs =>
      if (matchLit needle (c :: cs)).isSome then []
      else c :: takeUntilSub needle cs

/-- The suffix starting at the first occurrence of `needle`, if any. -/
def suffixFromSub (needle : List Char) : List Char → Option (List Char)
  | [] => none
  | c :: cs =>
      if (matchLit needle (c :: cs)).isSome then some (c :: cs)
      else suffixFromSub needle cs

/-- The text before the LAST occurrence of `needle`, if any occurrence
exists (rightmost occurrences are preferred). -/
def beforeLastSubAux (needle : List Char) : List Char → Option (List Char)
  | [] => none
  | c :: cs =>
      match beforeLastSubAux needle cs with
      | some p => some (c :: p)
      | none =>
          if (matchLit needle (c :: cs)).isSome then some [] else none

/-- Python `s.rsplit(needle, 1)[0]`. -/
def beforeLastSub (needle : List Char) (cs : List Char) : List Char :=
  (beforeLastSubAux needle cs).getD cs

/-- The markdown-fence stripping step of `basic_request` (reproducing the
source exactly: the kept content is `parts[2]` of `split("```", 2)`, then
`rsplit("```", 1)[0]`, stripped). -/
def fenceStrip (text : List Char) : List Char :=
  if startsLit "```".data text && containsSub "```".data (text.drop 3) then
    let afterFirst := text.drop 3
    let part2 := match suffixFromSub "```".data afterFirst with
      | some s => s.drop 3
      | none => []
    pyStrip (beforeLastSub "```".data part2)
  else text

/-- Fence stripping followed by heuristic extraction. -/
def heuristicPipeline (t : List Char) : NormOut :=
  heuristicExtract (fenceStrip t)

/-- Test `text.strip().startswith("{")`. -/
def isBraceStart (cs : List Char) : Bool :=
  match pyStrip cs with
  | c :: _ => c = '\x7b'
  | [] => false

/-- Test `"text" in parsed and isinstance(parsed["text"], str)`. -/
def findTextField (kvs : List (String × PyVal)) : Option String :=
  match kvs.find? (fun kv => kv.1 = "text") with
  | some (_, .str s) => some s
  | _ => none

/-- Test whether `set(parsed.keys()) & {"final_answer","explanation","citations","sql"}`
is non-empty. -/
def hasWantedKey (kvs : List (String × PyVal)) : Bool :=
  kvs.any (fun kv =>
    kv.1 = "final_answer" || kv.1 = "explanation" || kv.1 = "citations"
      || kv.1 = "sql")

/-- Backfill of an accepted parsed dict: ensure `final_answer`
(defaulting to `parsed.get("sql", "")`), `explanation` and `citations`
exist. -/
def backfillParsed (kvs : List (String × PyVal)) : List (String × PyVal) :=
  let kvs1 := if (kvs.find? (fun kv => kv.1 = "final_answer")).isSome then kvs
    else kvs ++ [("final_answer",
      (kvs.find? (fun kv => kv.1 = "sql")).elim (PyVal.str "") Prod.snd)]
  let kvs2 := if (kvs1.find? (fun kv => kv.1 = "explanation")).isSome then kvs1
    else kvs1 ++ [("explanation", PyVal.str "")]
  if (kvs2.find? (fun kv => kv.1 = "citations")).isSome then kvs2
  else kvs2 ++ [("citations", PyVal.emptyList)]

/-- The normalization path of `basic_request` applied to the completion
text, with the stdlib dict parser (`json.loads` falling back to
`ast.literal_eval`) supplied as `parseDict`. -/
def normalize (parseDict : String → Option (List (String × PyVal)))
    (raw : String) : NormOut :=
  let parsed := if isBraceStart raw.data then parseDict raw else none
  match parsed with
  | some kvs =>
      match findTextField kvs with
      | some t => heuristicPipeline t.data
      | none =>
          if hasWantedKey kvs then .parsedDict (backfillParsed kvs)
          else heuristicPipeline raw.data
  | none => heuristicPipeline raw.data

/-- A dict parser that never accepts — usable wherever the parse branch is
unreachable because the text does not start with a brace. -/
def noParse : String → Option (List (String × PyVal)) := fun _ => none

/-! ### Named predicates used in retrieval statements -/

/-- Results are in non-increasing order of their `score` field. -/
def sortedByScoreDesc (rs : List RetrievedChunk) : Prop :=
  List.Pairwise (fun a b => b.score ≤ a.score) rs

/-- Every returned record is some corpus chunk paired with its combined
score (checks all indices of the corpus). -/
def allFromCorpus (env : ScoreEnv) (chunks : List Chunk) (query : String)
    (k : Nat) : Bool :=
  (retrieve env chunks query k).all (fun r =>
    (List.range chunks.length).any (fun i =>
      r = mkRetrieved chunks
        (combineScores (env.bm25Scores (pySplitWs (pyLower query.data)))
          (env.tfidfSims query)) i))

/-! ### Concrete sample data for witnesses and counterexamples -/

/-- A state with no error, as after a fully successful run. -/
def sampleOkState : AgentState :=
  { initState "total revenue?" "short answer" with
      sql := "SELECT 1", retrieved_docs := [⟨"A::chunk0", "doc text", 1, "A.md"⟩] }

/-- A state carrying an execution error with no repairs consumed yet. -/
def sampleErrState : AgentState :=
  { initState "total revenue?" "short answer" with
      sql := "SELECT 1", error := some "no such table: Sales" }

/-- A state carrying an error after both repair attempts were consumed. -/
def sampleCappedState : AgentState :=
  { sampleErrState with repairs := 2 }

/-- An environment whose router completion carries an arbitrary route
value and whose later stages all fail. -/
def envBanana : Env :=
  { routerOut := .ok "banana", docs := [], plannerOut := .ok [],
    sqlgenOut := fun _ => .noOutput, execOut := fun _ => .exc "no db",
    synthOut := fun _ => .noOutput }

/-- An environment whose router completion raises. -/
def envRouterFail : Env :=
  { envBanana with routerOut := .exc "connection refused" }

/-- A two-chunk corpus. -/
def chunksAB : List Chunk :=
  [⟨"A::chunk0", "Beverages return within 30 days.", "A.md"⟩,
   ⟨"B::chunk0", "Widgets ship in 5 days.", "B.md"⟩]

/-- Scorers giving both chunks exactly equal scores (ties). -/
def scoreEnvTie : ScoreEnv := ⟨fun _ => [1, 1], fun _ => [1, 1]⟩

/-- Scorers preferring the first chunk. -/
def scoreEnvW : ScoreEnv := ⟨fun _ => [2, 1], fun _ => [1, 0]⟩

/-- The scorers of an empty corpus: per-chunk score arrays are empty. -/
def scoreEnvEmpty : ScoreEnv := ⟨fun _ => [], fun _ => []⟩

/-! ## Theorems -/

/-! ### Repair-count lemmas for the controller invariant -/

theorem node_router_repairs (o : LMResult String) (s : AgentState) :
    (node_router o s).repairs = s.repairs := by
  cases o with
  | ok v => by_cases h : v = "" <;> simp [node_router, h]
  | exc e => rfl

theorem node_sqlgen_repairs (o : SqlGenOut) (s : AgentState) :
    (node_sqlgen o s).repairs = s.repairs := by
  cases o with
  | exc e => rfl
  | noOutput => rfl
  | output f =>
      cases f with
      | none => rfl
      | some t => by_cases h : t = "" <;> simp [node_sqlgen, h]

theorem node_sqlexec_repairs (e : ExecOutcome) (s : AgentState) :
    (node_sqlexec e s).repairs = s.repairs := by
  by_cases h : s.sql = "" <;> simp [node_sqlexec, h]

theorem node_synthesize_repairs (o : SynthResult) (s : AgentState) :
    (node_synthesize o s).repairs = s.repairs := by
  cases o <;> rfl

theorem node_validate_or_repair_le (s : AgentState) (h : s.repairs ≤ 2) :
    (node_validate_or_repair s).repairs ≤ 2 := by
  unfold node_validate_or_repair
  split
  · split
    · exact h
    · rename_i hlt
      show s.repairs + 1 ≤ 2
      omega
  · exact h

theorem pipelineStep_repairs_le (env : Env) (c : Phase × AgentState)
    (h : c.2.repairs ≤ 2) : (pipelineStep env c).2.repairs ≤ 2 := by
  obtain ⟨p, s⟩ := c
  cases p with
  | router => simpa [pipelineStep, node_router_repairs] using h
  | retrieve => simpa [pipelineStep, node_retrieve] using h
  | planner =>
      cases hp : env.plannerOut with
      | exc m => simpa [pipelineStep, hp] using h
      | ok pl => simpa [pipelineStep, hp, node_planner] using h
  | sqlgen => simpa [pipelineStep, node_sqlgen_repairs] using h
  | sqlexec => simpa [pipelineStep, node_sqlexec_repairs] using h
  | synthesize =>
      simp only [pipelineStep]
      split <;> simpa [node_synthesize_repairs] using h
  | repair => exact node_validate_or_repair_le s h
  | done => simpa [pipelineStep] using h
  | aborted => simpa [pipelineStep] using h

theorem runController_succ (env : Env) (q fh : String) (n : Nat) :
    runController env q fh (n + 1) = pipelineStep env (runController env q fh n) := by
  unfold runController
  exact Function.iterate_succ_apply' (pipelineStep env) n _

/-- C1: starting from the initial state (`repairs = 0`), the `repairs`
field never exceeds 2 in any reachable state of the controller, whatever
outcomes the completion service, the retriever and the SQLite engine
produce — the repair decision routes to `repair` only when an error is
pending and `repairs < 2`, and the repair node itself never pushes the
counter past 2. -/
theorem repairs_never_exceed_two (env : Env) (question format_hint : String)
    (n : Nat) : (runController env question format_hint n).2.repairs ≤ 2 := by
  induction n with
  | zero => show (initState question format_hint).repairs ≤ 2; simp [initState]
  | succ n ih =>
      rw [runController_succ]
      exact pipelineStep_repairs_le env _ ih

/-! ### Confidence scoring (C5) -/

theorem compute_confidence_eq_confFlags (s : AgentState) :
    compute_confidence s
      = confFlags (!pyTruthyOptStr s.error) (s.repairs == 0)
          (!s.retrieved_docs.isEmpty) := by
  by_cases h1 : pyTruthyOptStr s.error <;>
    by_cases h2 : s.repairs = 0 <;>
      by_cases h3 : s.retrieved_docs.isEmpty <;>
        simp [compute_confidence, confFlags, h1, h2, h3]

theorem ite_add_mono (x : ℚ) (hx : 0 ≤ x) (a a' : Bool) (h : a = true → a' = true) :
    (if a then x else 0) ≤ (if a' then x else 0) := by
  cases a
  · cases a' <;> simp [hx]
  · simp [h rfl]

theorem confFlags_mono (a b c a' b' c' : Bool) (h1 : a = true → a' = true)
    (h2 : b = true → b' = true) (h3 : c = true → c' = true) :
    confFlags a b c ≤ confFlags a' b' c' := by
  unfold confFlags
  apply min_le_min _ le_rfl
  have g1 := ite_add_mono (4/10) (by norm_num) a a' h1
  have g2 := ite_add_mono (3/10) (by norm_num) b b' h2
  have g3 := ite_add_mono (3/10) (by norm_num) c c' h3
  linarith

theorem confFlags_range (a b c : Bool) :
    1/10 ≤ confFlags a b c ∧ confFlags a b c ≤ 1 := by
  unfold confFlags
  constructor
  · refine le_min ?_ (by norm_num)
    have i1 : (0 : ℚ) ≤ if a then 4/10 else 0 := by cases a <;> norm_num
    have i2 : (0 : ℚ) ≤ if b then 3/10 else 0 := by cases b <;> norm_num
    have i3 : (0 : ℚ) ≤ if c then 3/10 else 0 := by cases c <;> norm_num
    linarith
  · exact min_le_right _ _

/-- C5: `compute_confidence` equals `0.1`, plus `0.4` when no error is
pending, plus `0.3` when `repairs == 0`, plus `0.3` when `retrieved_docs`
is non-empty, clamped at `1.0`; it always lies in `[0.1, 1.0]` and is
monotone non-decreasing in the three conditions (here `t` dominates `s`
condition-wise). -/
theorem compute_confidence_spec (s t : AgentState)
    (h1 : pyTruthyOptStr s.error = false → pyTruthyOptStr t.error = false)
    (h2 : s.repairs = 0 → t.repairs = 0)
    (h3 : s.retrieved_docs ≠ [] → t.retrieved_docs ≠ []) :
    compute_confidence s
      = min ((1 : ℚ)/10 + (if pyTruthyOptStr s.error then 0 else 4/10)
          + (if s.repairs = 0 then 3/10 else 0)
          + (if s.retrieved_docs = [] then 0 else 3/10)) 1
    ∧ (1 : ℚ)/10 ≤ compute_confidence s
    ∧ compute_confidence s ≤ 1
    ∧ compute_confidence s ≤ compute_confidence t := by
  refine ⟨?_, ?_, ?_, ?_⟩
  · rw [compute_confidence_eq_confFlags]
    unfold confFlags
    by_cases e : pyTruthyOptStr s.error <;>
      by_cases r : s.repairs = 0 <;>
        by_cases d : s.retrieved_docs = [] <;>
          simp [e, r, d, List.isEmpty_iff]
  · rw [compute_confidence_eq_confFlags]
    exact (confFlags_range _ _ _).1
  · rw [compute_confidence_eq_confFlags]
    exact (confFlags_range _ _ _).2
  · rw [compute_confidence_eq_confFlags s, compute_confidence_eq_confFlags t]
    apply confFlags_mono
    · intro h
      simp only [Bool.not_eq_true'] at h ⊢
      exact h1 h
    · intro h
      simp only [beq_iff_eq] at h ⊢
      exact h2 h
    · intro h
      have hs : s.retrieved_docs ≠ [] := by
        intro h0
        simp [h0] at h
      have ht2 : t.retrieved_docs ≠ [] := h3 hs
      simp [List.isEmpty_iff, ht2]

/-- Witness for C5 at concrete states: the hypotheses hold for
`sampleCappedState` (dominated) and `sampleOkState` (dominating), and the
conclusion follows by the theorem. -/
theorem compute_confidence_spec_witness :
    (pyTruthyOptStr sampleCappedState.error = false
        → pyTruthyOptStr sampleOkState.error = false)
    ∧ (sampleCappedState.repairs = 0 → sampleOkState.repairs = 0)
    ∧ (sampleCappedState.retrieved_docs ≠ [] → sampleOkState.retrieved_docs ≠ [])
    ∧ (compute_confidence sampleCappedState
        = min ((1 : ℚ)/10
            + (if pyTruthyOptStr sampleCappedState.error then 0 else 4/10)
            + (if sampleCappedState.repairs = 0 then 3/10 else 0)
            + (if sampleCappedState.retrieved_docs = [] then 0 else 3/10)) 1
      ∧ (1 : ℚ)/10 ≤ compute_confidence sampleCappedState
      ∧ compute_confidence sampleCappedState ≤ 1
      ∧ compute_confidence sampleCappedState ≤ compute_confidence sampleOkState) :=
  ⟨by decide, by decide, by decide,
    compute_confidence_spec sampleCappedState sampleOkState
      (by decide) (by decide) (by decide)⟩

/-! ### Repair node (C6, C10) -/

/-- C10: on a state with a pending (truthy) error and `repairs < 2`, the
repair node changes exactly the `repairs` field (incremented) and the
`sql` field (cleared); every other field — question, format hint, route,
retrieved docs, plan, sql_result, rows, columns, tables used, error,
citations, final answer, explanation — is untouched. -/
theorem repair_frame_effect (s : AgentState)
    (h1 : pyTruthyOptStr s.error = true) (h2 : s.repairs < 2) :
    node_validate_or_repair s = { s with repairs := s.repairs + 1, sql := "" } := by
  unfold node_validate_or_repair
  rw [h1]
  simp only [if_true]
  rw [if_neg (by omega)]

/-- Witness for C10 at `sampleErrState`. -/
theorem repair_frame_effect_witness :
    pyTruthyOptStr sampleErrState.error = true
    ∧ sampleErrState.repairs < 2
    ∧ node_validate_or_repair sampleErrState
        = { sampleErrState with repairs := sampleErrState.repairs + 1, sql := "" } :=
  ⟨by decide, by decide, repair_frame_effect sampleErrState (by decide) (by decide)⟩

/-- C6 counterexample: the cap check does exist inside the repair node
itself.  On a state with a pending error and `repairs = 2`, invoking
`node_validate_or_repair` neither increments `repairs` nor clears `sql`
— the state is returned unchanged — refuting "increments … and clears …
unconditionally: the cap check … happens only in the decision function,
not inside Repair itself". -/
theorem repair_not_unconditional :
    pyTruthyOptStr sampleCappedState.error = true
    ∧ node_validate_or_repair sampleCappedState = sampleCappedState
    ∧ (node_validate_or_repair sampleCappedState).repairs = 2
    ∧ (node_validate_or_repair sampleCappedState).sql = "SELECT 1" := by
  decide

/-- C6 amended: when the repair node is invoked with a pending error —
which the graph does exactly when `should_repair` permits, i.e. with
`repairs < 2` — it increments `repairs` and clears `sql`; but
`node_validate_or_repair` carries its own additional cap guard and
returns the state unchanged whenever `repairs ≥ 2`. -/
theorem repair_increments_under_cap (s : AgentState)
    (h : pyTruthyOptStr s.error = true) :
    (s.repairs < 2 →
        node_validate_or_repair s = { s with repairs := s.repairs + 1, sql := "" })
    ∧ (2 ≤ s.repairs → node_validate_or_repair s = s) := by
  constructor
  · intro hlt
    unfold node_validate_or_repair
    rw [h]
    simp only [if_true]
    rw [if_neg (by omega)]
  · intro hge
    unfold node_validate_or_repair
    rw [h]
    simp only [if_true]
    rw [if_pos (by omega)]

/-- Witness for C6 (amended) at `sampleErrState`. -/
theorem repair_increments_under_cap_witness :
    pyTruthyOptStr sampleErrState.error = true
    ∧ ((sampleErrState.repairs < 2 →
          node_validate_or_repair sampleErrState
            = { sampleErrState with repairs := sampleErrState.repairs + 1, sql := "" })
      ∧ (2 ≤ sampleErrState.repairs →
          node_validate_or_repair sampleErrState = sampleErrState)) :=
  ⟨by decide, repair_increments_under_cap sampleErrState (by decide)⟩

/-! ### Synthesizer on null output (C7) -/

/-- C7 counterexample: on a `None` synthesizer output the final answer is
the fixed placeholder `"No synthesis output"`, not an empty default — the
claim's "empty defaults for finalAnswer, explanation, and citations" fails
on the `final_answer` field (while indeed no error is recorded). -/
theorem synthesize_null_not_empty_final_answer :
    (node_synthesize .noOutput sampleOkState).final_answer = "No synthesis output"
    ∧ (node_synthesize .noOutput sampleOkState).final_answer ≠ ""
    ∧ (node_synthesize .noOutput sampleOkState).error = none := by
  decide

/-- C7 amended: on a `None` synthesizer output the node stores the fixed
placeholder `"No synthesis output"` as the final answer, empties
`explanation` and `citations`, and leaves every other field — in
particular `error` — unchanged, so no error is recorded. -/
theorem synthesize_null_defaults (s : AgentState) :
    node_synthesize .noOutput s
      = { s with final_answer := "No synthesis output", explanation := "",
                 citations := [] } := rfl

/-! ### Router behavior (C9) -/

/-- C9 counterexample: the route invariant `route ∈ {rag, sql, hybrid}`
does not hold in every reachable state — when the router completion's
`route` field is `"banana"`, the state after the Route stage stores
`"banana"`. -/
theorem route_not_in_enum :
    (runController envBanana "q" "hint" 1).2.route = "banana"
    ∧ (runController envBanana "q" "hint" 1).2.route ≠ "rag"
    ∧ (runController envBanana "q" "hint" 1).2.route ≠ "sql"
    ∧ (runController envBanana "q" "hint" 1).2.route ≠ "hybrid" := by
  decide

/-- C9 amended: on any Route failure the route is set to `"hybrid"`, an
error message (`"Router failed: "` plus the truncated exception text) is
recorded, and the pipeline is not aborted — the controller proceeds to the
Retrieve stage.  (On success the stored route is the lowercased, trimmed
completion value, which need not lie in `{rag, sql, hybrid}`.) -/
theorem router_failure_defaults_hybrid (env : Env) (s : AgentState) (msg : String)
    (h : env.routerOut = .exc msg) :
    pipelineStep env (Phase.router, s)
      = (Phase.retrieve,
         { s with route := "hybrid",
                  error := some ("Router failed: " ++ String.mk (msg.data.take 100)) }) := by
  simp [pipelineStep, node_router, h]

/-- Witness for C9 (amended) with `envRouterFail`. -/
theorem router_failure_defaults_hybrid_witness :
    envRouterFail.routerOut = .exc "connection refused"
    ∧ pipelineStep envRouterFail (Phase.router, sampleOkState)
        = (Phase.retrieve,
           { sampleOkState with route := "hybrid", error := some ("Router failed: " ++ String.mk ("connection refused".data.take 100)) }) :=
  ⟨rfl, router_failure_defaults_hybrid envRouterFail sampleOkState
    "connection refused" rfl⟩

/-! ### Retrieval (C2, C4) -/

theorem length_combineScores (bm tf : List ℚ) :
    (combineScores bm tf).length = min bm.length tf.length := by
  simp [combineScores]

theorem argsortDesc_mem (scores : List ℚ) (i : Nat) (h : i ∈ argsortDesc scores) :
    i < scores.length := by
  unfold argsortDesc at h
  rw [List.mem_reverse] at h
  exact List.mem_range.mp ((List.perm_insertionSort _ _).mem_iff.mp h)

theorem argsortDesc_sorted (scores : List ℚ) :
    List.Pairwise (fun i j => scores.getD j 0 ≤ scores.getD i 0)
      (argsortDesc scores) := by
  unfold argsortDesc
  rw [List.pairwise_reverse]
  haveI : IsTotal Nat (fun i j => scores.getD i 0 ≤ scores.getD j 0) :=
    ⟨fun a b => le_total _ _⟩
  haveI : IsTrans Nat (fun i j => scores.getD i 0 ≤ scores.getD j 0) :=
    ⟨fun a b c hab hbc => le_trans hab hbc⟩
  exact List.sorted_insertionSort _ _

/-- C2 (amended): on matching score-array lengths, `retrieve` returns at
most `k` records, in non-increasing order of combined score
`0.7 * bm25 + 0.3 * tfidf`, each record being a corpus chunk paired with
its combined score.  (Tie order is settled by the counterexample: equal
scores come out in reverse indexing order, not original order.) -/
theorem retrieve_at_most_k_sorted (env : ScoreEnv) (chunks : List Chunk)
    (query : String) (k : Nat)
    (hb : (env.bm25Scores (pySplitWs (pyLower query.data))).length = chunks.length)
    (ht : (env.tfidfSims query).length = chunks.length) :
    (retrieve env chunks query k).length ≤ k
    ∧ sortedByScoreDesc (retrieve env chunks query k)
    ∧ allFromCorpus env chunks query k = true := by
  refine ⟨?_, ?_, ?_⟩
  · unfold retrieve
    rw [List.length_map]
    exact List.length_take_le _ _
  · unfold sortedByScoreDesc retrieve
    rw [List.pairwise_map]
    refine List.Pairwise.sublist (List.take_sublist _ _) ?_
    exact argsortDesc_sorted _
  · unfold allFromCorpus
    rw [List.all_eq_true]
    intro r hr
    unfold retrieve at hr
    rw [List.mem_map] at hr
    obtain ⟨idx, hidx, rfl⟩ := hr
    rw [List.any_eq_true]
    refine ⟨idx, ?_, decide_eq_true rfl⟩
    rw [List.mem_range]
    have h1 := List.mem_of_mem_take hidx
    have h2 := argsortDesc_mem _ idx h1
    rw [length_combineScores, hb, ht, min_self] at h2
    exact h2

/-- Witness for C2 (amended) on the two-chunk corpus with `k = 1`. -/
theorem retrieve_at_most_k_sorted_witness :
    (scoreEnvW.bm25Scores (pySplitWs (pyLower "beverages".data))).length
        = chunksAB.length
    ∧ (scoreEnvW.tfidfSims "beverages").length = chunksAB.length
    ∧ ((retrieve scoreEnvW chunksAB "beverages" 1).length ≤ 1
      ∧ sortedByScoreDesc (retrieve scoreEnvW chunksAB "beverages" 1)
      ∧ allFromCorpus scoreEnvW chunksAB "beverages" 1 = true) :=
  ⟨rfl, rfl, retrieve_at_most_k_sorted scoreEnvW chunksAB "beverages" 1 rfl rfl⟩

/-- C2 counterexample (tie order): with both chunks scoring exactly the
same under both indexes (combined score `1` each), `retrieve` returns the
second chunk before the first — `argsort()[::-1]` reverses a stable
ascending sort, so equal scores come out in reverse indexing order,
refuting "chunks with equal combined score appear in their original
indexing order". -/
theorem retrieve_tie_order_reversed :
    (retrieve scoreEnvTie chunksAB "beverages return days" 2).map RetrievedChunk.id
        = ["B::chunk0", "A::chunk0"]
    ∧ (retrieve scoreEnvTie chunksAB "beverages return days" 2).map RetrievedChunk.score
        = [1, 1]
    ∧ ¬ ((retrieve scoreEnvTie chunksAB "beverages return days" 2).map RetrievedChunk.id
        = ["A::chunk0", "B::chunk0"]) := by
  have hcomb : combineScores
      (scoreEnvTie.bm25Scores (pySplitWs (pyLower "beverages return days".data)))
      (scoreEnvTie.tfidfSims "beverages return days") = [1, 1] := by
    show combineScores [1, 1] [1, 1] = [1, 1]
    norm_num [combineScores]
  have hres : retrieve scoreEnvTie chunksAB "beverages return days" 2
      = ((argsortDesc [1, 1]).take 2).map (mkRetrieved chunksAB [1, 1]) := by
    unfold retrieve
    rw [hcomb]
  rw [hres]
  refine ⟨?_, ?_, ?_⟩ <;> decide

/-- C4: over an empty corpus (zero chunks, hence empty per-chunk score
arrays from both indexes) `retrieve` returns the empty sequence for every
query and every `k`. -/
theorem retrieve_empty_corpus (env : ScoreEnv) (query : String) (k : Nat)
    (hb : env.bm25Scores (pySplitWs (pyLower query.data)) = [])
    (ht : env.tfidfSims query = []) :
    retrieve env [] query k = [] := by
  unfold retrieve
  rw [hb, ht]
  simp [combineScores, argsortDesc]

/-- Witness for C4 with the empty-corpus scorers. -/
theorem retrieve_empty_corpus_witness :
    scoreEnvEmpty.bm25Scores (pySplitWs (pyLower "anything".data)) = []
    ∧ scoreEnvEmpty.tfidfSims "anything" = []
    ∧ retrieve scoreEnvEmpty [] "anything" 5 = [] :=
  ⟨rfl, rfl, retrieve_empty_corpus scoreEnvEmpty "anything" 5 rfl rfl⟩

/-! ### SQLite table extraction (C3) -/

/-- C3 (code bug): on the spec's own scenario query, the capture class
`[A-Za-z0-9_ ]*` contains a space, so the scan after `FROM` runs through
`LIMIT 1` and `extract_tables_used` yields `["Products LIMIT 1"]`, not the
documented `{"Products"}`; `run_sql` copies that value into `tables_used`
and it is the same whether execution succeeds or raises. -/
theorem extract_tables_used_overcaptures :
    extract_tables_used "SELECT ProductName FROM Products LIMIT 1"
        = ["Products LIMIT 1"]
    ∧ extract_tables_used "SELECT ProductName FROM Products LIMIT 1"
        ≠ ["Products"]
    ∧ (run_sql "SELECT ProductName FROM Products LIMIT 1"
        (.ok ["ProductName"] [["Chai"]]))
        = ⟨["ProductName"], [["Chai"]], ["Products LIMIT 1"], none⟩
    ∧ (run_sql "SELECT ProductName FROM Products LIMIT 1" (.exc "boom")).tables_used
        = (run_sql "SELECT ProductName FROM Products LIMIT 1"
            (.ok ["ProductName"] [["Chai"]])).tables_used := by
  refine ⟨?_, ?_, ?_, ?_⟩ <;> decide

/-! ### Completion normalizer (C8) -/

theorem fenceStrip_no_fence (t : List Char)
    (h : startsLit "```".data t = false) : fenceStrip t = t := by
  unfold fenceStrip
  rw [h]
  simp

/-- C8 (amended): when the completion text has no recognized structure —
it does not start with a brace (so no mapping parse is attempted), has no
fence, no `[[ ## field ## ]]` marker for any of the four fields, no
`Final Answer:` / `Explanation` / `Citations:` heading, and its first
token is no query keyword — `basic_request` returns the raw text as an
opaque value: no structured record is produced, so the `sql = ""` /
`route = "hybrid"` defaults are never applied on this path. -/
theorem normalize_unstructured_returns_raw
    (parseDict : String → Option (List (String × PyVal))) (raw : String)
    (hbrace : isBraceStart raw.data = false)
    (hfence : startsLit "```".data raw.data = false)
    (hm1 : markerField "final_answer" raw.data = none)
    (hm2 : markerField "explanation" raw.data = none)
    (hm3 : markerField "citations" raw.data = none)
    (hm4 : markerField "sql" raw.data = none)
    (hh1 : headingFinalAnswer raw.data = none)
    (hh2 : headingExplanation raw.data = none)
    (hh3 : headingCitations raw.data = none)
    (hsql : sqlLike raw.data = false) :
    normalize parseDict raw = .raw raw := by
  unfold normalize
  rw [hbrace]
  simp only [Bool.false_eq_true, if_false]
  unfold heuristicPipeline
  rw [fenceStrip_no_fence _ hfence]
  unfold heuristicExtract
  rw [hm1, hm2, hm3, hm4, hh1, hh2, hh3, hsql]
  simp only [Option.map_none', Bool.false_eq_true, if_false, Option.isSome_none,
    Bool.or_self, Bool.or_false]

/-- Witness for C8 (amended) on the unstructured text `"hello world"`. -/
theorem normalize_unstructured_returns_raw_witness :
    isBraceStart "hello world".data = false
    ∧ startsLit "```".data "hello world".data = false
    ∧ markerField "final_answer" "hello world".data = none
    ∧ markerField "explanation" "hello world".data = none
    ∧ markerField "citations" "hello world".data = none
    ∧ markerField "sql" "hello world".data = none
    ∧ headingFinalAnswer "hello world".data = none
    ∧ headingExplanation "hello world".data = none
    ∧ headingCitations "hello world".data = none
    ∧ sqlLike "hello world".data = false
    ∧ normalize noParse "hello world" = .raw "hello world" :=
  ⟨by decide, by decide, by decide, by decide, by decide, by decide, by decide,
   by decide, by decide, by decide,
   normalize_unstructured_returns_raw noParse "hello world" (by decide)
     (by decide) (by decide) (by decide) (by decide) (by decide) (by decide)
     (by decide) (by decide) (by decide)⟩

/-- C8 counterexample: on the unstructured text `"hello world"` the
normalizer returns the raw text, not a structured record — there is no
`sql` field equal to `""` and no `route` field equal to `"hybrid"`,
refuting the claim as stated. -/
theorem normalize_unstructured_no_fields :
    normalize noParse "hello world" = .raw "hello world"
    ∧ NormOut.sqlField (normalize noParse "hello world") ≠ some "".data
    ∧ NormOut.routeField (normalize noParse "hello world") ≠ some "hybrid" := by
  refine ⟨?_, ?_, ?_⟩ <;> decide

end AgentSpec
